import Mathlib

/-
Verification of the CareerCompassAI resume-analyzer repository.

The repository holds three Python analyzers:
  * src/services/advanced_resume_analyzer.py  (class AdvancedResumeAnalyzer)
  * src/services/realtime_resume_analyzer.py  (class RealtimeResumeAnalyzer)
  * src/services/resume_analyzer.py           (class ResumeAnalyzer, the basic one)

This file is a shallow embedding of the arithmetic, control flow and data
plumbing of the three analyzers.  The regular-expression layer (which only
produces booleans, match counts and captured integers consumed by the logic
below) is abstracted as explicit inputs; every definition that carries a line
reference is a direct transcription of the Python statements at that place.
-/

/-- Experience levels assigned by all three analyzers. -/
inductive Level
  | junior
  | mid
  | senior
deriving DecidableEq

/-- The descending grade ladder of advanced_resume_analyzer.py lines 1517-1534:
A+ at 90, A at 85, A- at 80, B+ at 75, B at 70, B- at 65, C+ at 60, C at 55,
otherwise C-.  This is also the ladder asserted by the specification. -/
def grade_ladder (total : Nat) : String :=
  if 90 ≤ total then "A+"
  else if 85 ≤ total then "A"
  else if 80 ≤ total then "A-"
  else if 75 ≤ total then "B+"
  else if 70 ≤ total then "B"
  else if 65 ≤ total then "B-"
  else if 60 ≤ total then "C+"
  else if 55 ≤ total then "C"
  else "C-"

namespace Advanced

/-- The regex-derived observations consumed by
AdvancedResumeAnalyzer.calculate_overall_score (lines 1409-1536).  Each field
is the outcome of one regex or counting step of the Python code; the scorer
only ever looks at these values. -/
structure ScorerInput where
  total_technical_skills : Nat
  level : Level
  has_leadership : Bool
  exp_confidence : Nat
  has_contact_info : Bool
  has_summary : Bool
  has_experience_section : Bool
  has_education : Bool
  has_skills_section : Bool
  word_count : Nat
  has_quantifiable_achievements : Bool
  has_certifications : Bool
  has_portfolio_links : Bool
  soft_skills_count : Nat
  extraction_quality_label : String
deriving DecidableEq

/-- Numeric part of the score_breakdown dict built by calculate_overall_score
(the informational strengths / areas_for_improvement string lists are
omitted). -/
structure ScoreBreakdown where
  technical_skills : Nat
  experience_quality : Nat
  content_structure : Nat
  achievements : Nat
  completeness : Nat
  extraction_quality : Nat
  total_score : Nat
  grade : String
deriving DecidableEq

/-- section_count of AdvancedResumeAnalyzer.analyze_resume_structure
(lines 1219-1240): one point per detected section regex. -/
def section_count (i : ScorerInput) : Nat :=
  (if i.has_contact_info then 1 else 0) +
  (if i.has_summary then 1 else 0) +
  (if i.has_experience_section then 1 else 0) +
  (if i.has_education then 1 else 0) +
  (if i.has_skills_section then 1 else 0)

/-- estimated_length of analyze_resume_structure (lines 1242-1249). -/
def estimated_length (word_count : Nat) : String :=
  if word_count < 200 then "too_short"
  else if word_count < 600 then "appropriate"
  else "too_long"

/-- AdvancedResumeAnalyzer.calculate_overall_score (lines 1409-1536),
transcribed sub-score by sub-score.  The total (line 1508) sums exactly the
five sub-scores technical_skills, experience_quality, content_structure,
achievements and completeness and is clamped by min(total, 100); the
extraction_quality bonus is stored in the breakdown but not added. -/
def calculate_overall_score (i : ScorerInput) : ScoreBreakdown :=
  let technical : Nat :=
    if 15 ≤ i.total_technical_skills then 30
    else if 10 ≤ i.total_technical_skills then 25
    else if 5 ≤ i.total_technical_skills then 20
    else 10
  let experience : Nat :=
    min (15 + (if i.level = Level.senior then 10 else if i.level = Level.mid then 5 else 0)
           + (if i.has_leadership then 5 else 0)
           + (if 80 < i.exp_confidence then 5 else 0)) 25
  let structure_score : Nat :=
    section_count i * 3 + (if estimated_length i.word_count = "appropriate" then 5 else 0)
  let content : Nat := min structure_score 20
  let achievements : Nat := if i.has_quantifiable_achievements then 15 else 5
  let completeness : Nat :=
    (if i.has_certifications then 3 else 0) +
    (if i.has_portfolio_links then 4 else 0) +
    (if 3 ≤ i.soft_skills_count then 3 else 0)
  let extraction : Nat :=
    if i.extraction_quality_label = "excellent" then 5
    else if i.extraction_quality_label = "good" then 3
    else if i.extraction_quality_label = "basic" then 1
    else 0
  let total : Nat := min (technical + experience + content + achievements + completeness) 100
  { technical_skills := technical
    experience_quality := experience
    content_structure := content
    achievements := achievements
    completeness := completeness
    extraction_quality := extraction
    total_score := total
    grade := grade_ladder total }

/-- AdvancedResumeAnalyzer.determine_experience_level (lines 593-707).
Inputs are the regex observations: the integer years captured by the year
patterns, presence of senior / mid keywords, total technical skill count,
presence of leadership matches, and the number of populated skill
categories.  Returns the level together with min(sum of factors, 95). -/
def determine_experience_level (years_found : List Nat) (has_senior_kw has_mid_kw : Bool)
    (total_skills : Nat) (has_leadership : Bool) (categories_with_skills : Nat) :
    Level × Nat :=
  let max_years := years_found.foldr max 0
  let base : Level × Nat :=
    if 8 ≤ max_years ∨ has_senior_kw = true then (Level.senior, 70)
    else if 3 ≤ max_years ∨ has_mid_kw = true then (Level.mid, 60)
    else (Level.junior, 50)
  let skill_bonus : Nat := if 15 < total_skills then 20 else if 8 < total_skills then 10 else 0
  let lead_bonus : Nat := if has_leadership then 15 else 0
  let breadth_bonus : Nat := if 4 ≤ categories_with_skills then 10 else 0
  (base.1, min (base.2 + skill_bonus + lead_bonus + breadth_bonus) 95)

end Advanced

namespace Realtime

/-- Numeric part of the score_breakdown dict built by
RealtimeResumeAnalyzer.calculate_resume_score_realtime (lines 528-623);
the feedback string list is omitted. -/
structure RTScoreBreakdown where
  technical_skills : Nat
  experience : Nat
  content_quality : Nat
  completeness : Nat
  total_score : Nat
  grade : String
deriving DecidableEq

/-- RealtimeResumeAnalyzer.calculate_resume_score_realtime (lines 528-623),
with the regex observations as inputs.  Note: the total (line 598) sums the
four sub-scores technical_skills, experience, content_quality and
completeness without clamping, and the grade chain (lines 606-621) bottoms
out at "C" — it has no "C-" case. -/
def calculate_resume_score_realtime (total_count : Nat) (level : Level)
    (leadership_score : Nat) (has_quantifiable has_action_verb : Bool)
    (has_contact_info has_education has_experience_section : Bool) : RTScoreBreakdown :=
  let technical : Nat := min (total_count * 3) 40
  let experience : Nat :=
    min (15 + (if level = Level.senior then 15 else if level = Level.mid then 10 else 5)
          + (if 0 < leadership_score then 5 else 0)) 30
  let content : Nat :=
    10 + (if has_quantifiable then 5 else 0) + (if has_action_verb then 5 else 0)
  let completeness : Nat :=
    (if has_contact_info then 3 else 0) +
    (if has_education then 3 else 0) +
    (if has_experience_section then 4 else 0)
  let total : Nat := technical + experience + content + completeness
  { technical_skills := technical
    experience := experience
    content_quality := content
    completeness := completeness
    total_score := total
    grade :=
      if 90 ≤ total then "A+"
      else if 85 ≤ total then "A"
      else if 80 ≤ total then "A-"
      else if 75 ≤ total then "B+"
      else if 70 ≤ total then "B"
      else if 65 ≤ total then "B-"
      else if 60 ≤ total then "C+"
      else "C" }

end Realtime

/-- C1 counterexample: the real-time scorer cited by the claim violates the
claimed grade ladder.  With no skills, junior level and no content signals
the real-time breakdown totals 30 and is graded "C", while the claimed ladder
(an exact transcription of the advanced scorer and of the spec) grades a
total of 30 as "C-". -/
theorem c1_realtime_grade_ladder_counterexample :
    (Realtime.calculate_resume_score_realtime 0 Level.junior 0 false false false false
        false).total_score = 30
    ∧ (Realtime.calculate_resume_score_realtime 0 Level.junior 0 false false false false
        false).grade = "C"
    ∧ grade_ladder 30 = "C-"
    ∧ (Realtime.calculate_resume_score_realtime 0 Level.junior 0 false false false false
        false).grade ≠ grade_ladder 30 := by
  refine ⟨rfl, rfl, rfl, ?_⟩
  decide

/-- C1 (amended to the advanced analyzer): the advanced Scorer total equals
the sum of the five sub-scores technical_skills, experience_quality,
content_structure, achievements and completeness — the extraction-quality
bonus is reported but not added — clamped to at most 100 (it is a natural
number, hence in [0,100]), and the letter grade is the fixed descending
threshold ladder, exact at boundaries (90 gives A+, 89 gives A, down to C-
below 55). -/
theorem c1_advanced_total_is_clamped_sum_and_grade_is_ladder (i : Advanced.ScorerInput) :
    (Advanced.calculate_overall_score i).total_score
      = min ((Advanced.calculate_overall_score i).technical_skills
          + (Advanced.calculate_overall_score i).experience_quality
          + (Advanced.calculate_overall_score i).content_structure
          + (Advanced.calculate_overall_score i).achievements
          + (Advanced.calculate_overall_score i).completeness) 100
    ∧ (Advanced.calculate_overall_score i).total_score ≤ 100
    ∧ (Advanced.calculate_overall_score i).grade
        = grade_ladder (Advanced.calculate_overall_score i).total_score
    ∧ grade_ladder 90 = "A+" ∧ grade_ladder 89 = "A" := by
  refine ⟨rfl, ?_, rfl, rfl, rfl⟩
  exact Nat.min_le_right _ _

/-- C2: the advanced Experience Classifier assigns the level by the first
matching rule in priority order (max years at least 8 or a senior keyword
gives senior with base 70; otherwise max years at least 3 or a mid keyword
gives mid with base 60; otherwise junior with base 50), then adds 20 when the
technical skill count exceeds 15 or else 10 when it exceeds 8, 15 when a
leadership mention exists, and 10 when at least 4 skill categories are
populated, and clamps the final confidence to at most 95. -/
theorem c2_experience_level_priority_rule_and_confidence (yf : List Nat) (sen mid : Bool)
    (ts : Nat) (lead : Bool) (cats : Nat) :
    ((Advanced.determine_experience_level yf sen mid ts lead cats).1 = Level.senior
        ↔ (8 ≤ yf.foldr max 0 ∨ sen = true))
    ∧ ((Advanced.determine_experience_level yf sen mid ts lead cats).1 = Level.mid
        ↔ (¬(8 ≤ yf.foldr max 0 ∨ sen = true) ∧ (3 ≤ yf.foldr max 0 ∨ mid = true)))
    ∧ ((Advanced.determine_experience_level yf sen mid ts lead cats).1 = Level.junior
        ↔ (¬(8 ≤ yf.foldr max 0 ∨ sen = true) ∧ ¬(3 ≤ yf.foldr max 0 ∨ mid = true)))
    ∧ (Advanced.determine_experience_level yf sen mid ts lead cats).2
        = min ((if (Advanced.determine_experience_level yf sen mid ts lead cats).1
                    = Level.senior then 70
                else if (Advanced.determine_experience_level yf sen mid ts lead cats).1
                    = Level.mid then 60
                else 50)
            + (if 15 < ts then 20 else if 8 < ts then 10 else 0)
            + (if lead then 15 else 0)
            + (if 4 ≤ cats then 10 else 0)) 95
    ∧ (Advanced.determine_experience_level yf sen mid ts lead cats).2 ≤ 95 := by
  unfold Advanced.determine_experience_level
  by_cases h1 : 8 ≤ yf.foldr max 0 ∨ sen = true
  · simp [h1]
  · by_cases h2 : 3 ≤ yf.foldr max 0 ∨ mid = true
    · simp [h1, h2]
    · simp [h1, h2]

/-- Python str.strip(): drop leading and trailing whitespace.  (Defined over
the character list so that it evaluates inside the kernel.) -/
def py_strip (s : String) : String :=
  ⟨((s.toList.dropWhile Char.isWhitespace).reverse.dropWhile Char.isWhitespace).reverse⟩

/-- Outcome of running one PDF-library extraction strategy on the input
bytes.  `appended` is the text the strategy appended to the accumulating
`text` variable before returning or raising (the Python code appends page by
page, so a strategy that raises midway may still have appended text);
`error` is `some msg` when the strategy body raised and the except-handler
caught `msg`. -/
structure StratOutcome where
  appended : String
  error : Option String
deriving DecidableEq

/-- Outcome of the raw-byte fallback: `cleaned` is the text produced by
decoding the bytes and applying the two re.sub cleanups; `error` is set when
that block raised. -/
structure RawOutcome where
  cleaned : String
  error : Option String
deriving DecidableEq

namespace Advanced

/-- The extraction_metadata dict plus returned text of
AdvancedResumeAnalyzer.extract_text_from_pdf (lines 231-357); page_count is
omitted (unused downstream of the claims). -/
structure ExtractionResult where
  text : String
  successful_method : Option String
  extraction_quality : String
  methods_tried : List String
  errors : List String
deriving DecidableEq

/-- The readable-word filter of the raw-byte strategy (lines 339-340):
`[word for word in cleaned_text.split() if len(word) > 2 and word.isalpha()]`. -/
def readable_words (cleaned : String) : List String :=
  ((cleaned.split Char.isWhitespace).filter (fun w => w ≠ ""))
    |>.filter (fun w => decide (2 < w.length) && w.toList.all Char.isAlpha)

/-- AdvancedResumeAnalyzer.extract_text_from_pdf (lines 231-357).  The four
strategies run in order PyMuPDF, pdfplumber, PyPDF2, raw bytes; each appends
its text to the shared `text` variable; a strategy that did not raise
returns immediately when the accumulated stripped text exceeds its threshold
(200, 200, 100 characters; the raw strategy instead requires more than 50
readable words and replaces the accumulated text); a raised strategy has its
error message appended to the errors list and the loop continues; when all
four are exhausted the function returns the empty string with quality
"failed".  Every strategy body sits inside try/except, so the function is
total — no exception escapes. -/
def extract_text_from_pdf (s1 s2 s3 : StratOutcome) (raw : RawOutcome) : ExtractionResult :=
  let t1 := s1.appended
  let e1 : List String := match s1.error with | some e => [e] | none => []
  if s1.error = none ∧ 200 < (py_strip t1).length then
    { text := t1, successful_method := some "pymupdf", extraction_quality := "excellent"
      methods_tried := ["pymupdf"], errors := [] }
  else
    let t2 := t1 ++ s2.appended
    let e2 : List String := e1 ++ (match s2.error with | some e => [e] | none => [])
    if s2.error = none ∧ 200 < (py_strip t2).length then
      { text := t2, successful_method := some "pdfplumber", extraction_quality := "good"
        methods_tried := ["pymupdf", "pdfplumber"], errors := e1 }
    else
      let t3 := t2 ++ s3.appended
      let e3 : List String := e2 ++ (match s3.error with | some e => [e] | none => [])
      if s3.error = none ∧ 100 < (py_strip t3).length then
        { text := t3, successful_method := some "pypdf2", extraction_quality := "basic"
          methods_tried := ["pymupdf", "pdfplumber", "pypdf2"], errors := e2 }
      else
        if raw.error = none ∧ 50 < (readable_words raw.cleaned).length then
          { text := raw.cleaned, successful_method := some "raw_bytes"
            extraction_quality := "poor"
            methods_tried := ["pymupdf", "pdfplumber", "pypdf2", "raw_bytes"], errors := e3 }
        else
          { text := "", successful_method := none, extraction_quality := "failed"
            methods_tried := ["pymupdf", "pdfplumber", "pypdf2", "raw_bytes"]
            errors := e3 ++ (match raw.error with | some e => [e] | none => []) }

/-- One step of the strategy chain as the specification describes it:
an ordered attempt with its caught error (if any), the text available after
it ran, whether its own minimum-acceptable-length test passed, and its fixed
method / quality labels. -/
structure StrategyAttempt where
  error : Option String
  text_after : String
  passes : Bool
  method_name : String
  quality_label : String

/-- The extraction algorithm exactly as the specification words it: walk the
ordered strategy list; on a strategy runtime failure record the error string
and continue (never stop early on error); return immediately after the first
non-failing strategy whose own length test passes, with that strategy fixed
method and quality label; when the list is exhausted return the empty string
with quality "failed". -/
def run_strategy_chain : List StrategyAttempt → List String → List String → ExtractionResult
  | [], tried, errs =>
      { text := "", successful_method := none, extraction_quality := "failed"
        methods_tried := tried, errors := errs }
  | a :: rest, tried, errs =>
      match a.error with
      | some e => run_strategy_chain rest (tried ++ [a.method_name]) (errs ++ [e])
      | none =>
          if a.passes then
            { text := a.text_after, successful_method := some a.method_name
              extraction_quality := a.quality_label
              methods_tried := tried ++ [a.method_name], errors := errs }
          else run_strategy_chain rest (tried ++ [a.method_name]) errs

/-- The specification-side description of extract_text_from_pdf: the four
source strategies in their fixed priority order with their fixed thresholds
(200, 200, 100 stripped characters, then the 50-readable-word test) and
fixed labels, run through the generic chain above. -/
def extract_spec (s1 s2 s3 : StratOutcome) (raw : RawOutcome) : ExtractionResult :=
  run_strategy_chain
    [ { error := s1.error, text_after := s1.appended
        passes := decide (200 < (py_strip s1.appended).length)
        method_name := "pymupdf", quality_label := "excellent" }
    , { error := s2.error, text_after := s1.appended ++ s2.appended
        passes := decide (200 < (py_strip (s1.appended ++ s2.appended)).length)
        method_name := "pdfplumber", quality_label := "good" }
    , { error := s3.error, text_after := s1.appended ++ s2.appended ++ s3.appended
        passes := decide (100 < (py_strip (s1.appended ++ s2.appended ++ s3.appended)).length)
        method_name := "pypdf2", quality_label := "basic" }
    , { error := raw.error, text_after := raw.cleaned
        passes := decide (50 < (readable_words raw.cleaned).length)
        method_name := "raw_bytes", quality_label := "poor" } ]
    [] []

end Advanced

namespace Realtime

/-- The extraction_info dict of RealtimeResumeAnalyzer.extract_text_realtime
(lines 164-242); the wall-clock extraction_time and page_count are omitted. -/
structure RTExtractionInfo where
  method : String
  success : Bool
  text_length : Nat
deriving DecidableEq

/-- RealtimeResumeAnalyzer.extract_text_realtime (lines 164-242).  Each
strategy builds its own local text; PyMuPDF and pdfplumber return only when
the stripped text exceeds 100 characters, but the final PyPDF2 strategy
(lines 222-236) returns unconditionally whenever it does not raise —
regardless of the extracted length — and caught strategy errors are only
logged, never stored in the returned info. -/
def extract_text_realtime (o1 o2 o3 : StratOutcome) : String × RTExtractionInfo :=
  if o1.error = none ∧ 100 < (py_strip o1.appended).length then
    (o1.appended, { method := "pymupdf", success := true, text_length := o1.appended.length })
  else if o2.error = none ∧ 100 < (py_strip o2.appended).length then
    (o2.appended, { method := "pdfplumber", success := true, text_length := o2.appended.length })
  else if o3.error = none then
    (o3.appended, { method := "pypdf2", success := true, text_length := o3.appended.length })
  else
    ("", { method := "unknown", success := false, text_length := 0 })

end Realtime

/-- C3: when no strategy of the advanced extractor produces usable text
(each of the four either raised or left the accumulated text below its
threshold — e.g. an empty byte buffer, where every PDF library raises), the
extractor returns quality "failed" together with the empty string and no
successful method.  The embedding is a total function: every strategy body
of the source sits inside try/except, so no exception reaches the caller. -/
theorem c3_exhausted_extraction_returns_empty_and_failed (s1 s2 s3 : StratOutcome)
    (raw : RawOutcome)
    (h1 : ¬(s1.error = none ∧ 200 < (py_strip s1.appended).length))
    (h2 : ¬(s2.error = none ∧ 200 < (py_strip (s1.appended ++ s2.appended)).length))
    (h3 : ¬(s3.error = none ∧ 100 < (py_strip (s1.appended ++ s2.appended ++ s3.appended)).length))
    (h4 : ¬(raw.error = none ∧ 50 < (Advanced.readable_words raw.cleaned).length)) :
    (Advanced.extract_text_from_pdf s1 s2 s3 raw).text = ""
    ∧ (Advanced.extract_text_from_pdf s1 s2 s3 raw).extraction_quality = "failed"
    ∧ (Advanced.extract_text_from_pdf s1 s2 s3 raw).successful_method = none := by
  simp only [Advanced.extract_text_from_pdf]
  rw [if_neg h1, if_neg h2, if_neg h3, if_neg h4]
  exact ⟨rfl, rfl, rfl⟩

/-- C3 witness: all four strategies raise; the extractor returns the empty
string with quality "failed". -/
theorem c3_exhausted_extraction_witness :
    (Advanced.extract_text_from_pdf ⟨"", some "m1 failed"⟩ ⟨"", some "m2 failed"⟩
        ⟨"", some "m3 failed"⟩ ⟨"", some "m4 failed"⟩).text = ""
    ∧ (Advanced.extract_text_from_pdf ⟨"", some "m1 failed"⟩ ⟨"", some "m2 failed"⟩
        ⟨"", some "m3 failed"⟩ ⟨"", some "m4 failed"⟩).extraction_quality = "failed"
    ∧ (Advanced.extract_text_from_pdf ⟨"", some "m1 failed"⟩ ⟨"", some "m2 failed"⟩
        ⟨"", some "m3 failed"⟩ ⟨"", some "m4 failed"⟩).successful_method = none :=
  c3_exhausted_extraction_returns_empty_and_failed _ _ _ _
    (by decide) (by decide) (by decide) (by decide)

/-- C4 counterexample: the real-time extractor cited by the claim does not
follow the claimed strategy contract.  With the first two strategies raising
and PyPDF2 extracting nothing, it returns success with method "pypdf2" and
the empty string — the returning strategy text length (0) exceeds no
minimum-acceptable-length threshold — and the two recorded-and-continued
error strings appear nowhere in the returned info (which has no error
field at all). -/
theorem c4_realtime_extractor_counterexample :
    Realtime.extract_text_realtime ⟨"", some "pymupdf boom"⟩ ⟨"", some "pdfplumber boom"⟩
        ⟨"", none⟩
      = ("", { method := "pypdf2", success := true, text_length := 0 })
    ∧ (py_strip ("" : String)).length = 0 := by
  exact ⟨rfl, by decide⟩

/-- C4 (amended to the advanced analyzer): extract_text_from_pdf is
extensionally equal to the specification chain: strategies tried in the
fixed priority order PyMuPDF, pdfplumber, PyPDF2, raw bytes; immediate
return after the first non-raising strategy whose accumulated text passes
its own threshold (200, 200, 100 stripped characters, then more than 50
readable words — non-increasing for later, weaker strategies), with that
strategy fixed method and quality label; on a strategy runtime failure the
error string is recorded and the chain continues, never stopping early on
error. -/
theorem c4_advanced_extractor_follows_priority_chain (s1 s2 s3 : StratOutcome)
    (raw : RawOutcome) :
    Advanced.extract_text_from_pdf s1 s2 s3 raw = Advanced.extract_spec s1 s2 s3 raw := by
  simp only [Advanced.extract_text_from_pdf, Advanced.extract_spec,
    Advanced.run_strategy_chain]
  rcases hs1 : s1.error with _ | e1 <;> rcases hs2 : s2.error with _ | e2 <;>
    rcases hs3 : s3.error with _ | e3 <;> rcases hraw : raw.error with _ | e4 <;>
    simp [hs1, hs2, hs3, hraw, Advanced.run_strategy_chain]

namespace Advanced

/-- The regex observations that the downstream stages of
AdvancedResumeAnalyzer.analyze_resume draw from the cleaned text; they feed
determine_experience_level and calculate_overall_score. -/
structure AnalysisFeatures where
  years_found : List Nat
  has_senior_kw : Bool
  has_mid_kw : Bool
  total_technical_skills : Nat
  has_leadership : Bool
  categories_with_skills : Nat
  has_contact_info : Bool
  has_summary : Bool
  has_experience_section : Bool
  has_education : Bool
  has_skills_section : Bool
  word_count : Nat
  has_quantifiable_achievements : Bool
  has_certifications : Bool
  has_portfolio_links : Bool
  soft_skills_count : Nat
deriving DecidableEq

/-- AdvancedResumeAnalyzer.analyze_resume (lines 1538-1641): extract the
text, and when the stripped extracted text is shorter than 50 characters
raise ValueError("Could not extract meaningful text from PDF") — which ends
the call before any downstream stage runs; otherwise run the experience
classifier and the scorer and return the score analysis of the report. -/
def analyze_resume (s1 s2 s3 : StratOutcome) (raw : RawOutcome) (f : AnalysisFeatures) :
    Except String ScoreBreakdown :=
  let er := extract_text_from_pdf s1 s2 s3 raw
  if (py_strip er.text).length < 50 then
    Except.error "Could not extract meaningful text from PDF"
  else
    let exp := determine_experience_level f.years_found f.has_senior_kw f.has_mid_kw
      f.total_technical_skills f.has_leadership f.categories_with_skills
    Except.ok (calculate_overall_score
      { total_technical_skills := f.total_technical_skills
        level := exp.1
        has_leadership := f.has_leadership
        exp_confidence := exp.2
        has_contact_info := f.has_contact_info
        has_summary := f.has_summary
        has_experience_section := f.has_experience_section
        has_education := f.has_education
        has_skills_section := f.has_skills_section
        word_count := f.word_count
        has_quantifiable_achievements := f.has_quantifiable_achievements
        has_certifications := f.has_certifications
        has_portfolio_links := f.has_portfolio_links
        soft_skills_count := f.soft_skills_count
        extraction_quality_label := er.extraction_quality })

end Advanced

/-- C5: whenever the stripped extracted text is shorter than 50 characters,
the advanced analysis call terminates with the validation error and produces
no score — the Scorer and every other downstream stage are never reached
(the ok branch, which alone builds a ScoreBreakdown, is skipped). -/
theorem c5_short_text_aborts_before_scorer (s1 s2 s3 : StratOutcome) (raw : RawOutcome)
    (f : Advanced.AnalysisFeatures)
    (h : (py_strip (Advanced.extract_text_from_pdf s1 s2 s3 raw).text).length < 50) :
    Advanced.analyze_resume s1 s2 s3 raw f
      = Except.error "Could not extract meaningful text from PDF" := by
  simp only [Advanced.analyze_resume]
  rw [if_pos h]

/-- C5 witness: with every extraction strategy raising, the extracted text is
empty (0 characters, in particular shorter than 50, matching the too-short
input scenario) and the analysis call returns the terminal validation
error. -/
theorem c5_short_text_aborts_witness :
    Advanced.analyze_resume ⟨"", some "m1 failed"⟩ ⟨"", some "m2 failed"⟩
        ⟨"", some "m3 failed"⟩ ⟨"", some "m4 failed"⟩
        ⟨[], false, false, 0, false, 0, false, false, false, false, false, 0,
          false, false, false, 0⟩
      = Except.error "Could not extract meaningful text from PDF" :=
  c5_short_text_aborts_before_scorer _ _ _ _ _ (by decide)

namespace Realtime

/-- The local names bound in the scope of
RealtimeResumeAnalyzer.analyze_resume_realtime (lines 674-748) before the
result dict at lines 707-737 is evaluated: the parameters and every variable
assigned on the success path. -/
def assigned_locals : List String :=
  ["self", "pdf_bytes", "filename", "start_time", "extracted_text",
   "extraction_info", "cleaned_text", "skills_analysis", "experience_analysis",
   "job_matches", "score_analysis", "suggestions", "analysis_time"]

/-- The variable names read by the result dict expression at lines 707-737,
in evaluation order.  Line 729 reads score_breakdown. -/
def result_references : List String :=
  ["analysis_time", "extraction_info", "score_analysis", "experience_analysis",
   "skills_analysis", "job_matches", "suggestions", "score_breakdown",
   "extracted_text", "cleaned_text", "filename"]

/-- Python name resolution for the result-compilation step: evaluating the
dict reads each referenced name in order and raises NameError at the first
name not bound in the scope. -/
def compile_result (locals_bound refs : List String) : Except String Unit :=
  match refs.find? (fun n => !(locals_bound.contains n)) with
  | some n => Except.error ("NameError: name " ++ n ++ " is not defined")
  | none => Except.ok ()

/-- The observable outcome of analyze_resume_realtime: the success flag of
the returned dict plus the error string of the failure dict. -/
structure AnalysisOutcome where
  success : Bool
  error_message : Option String
deriving DecidableEq

/-- RealtimeResumeAnalyzer.analyze_resume_realtime (lines 674-748): extract
the text; when extraction was unsuccessful or the stripped text is shorter
than 50 characters raise ValueError, caught by the outer except which
returns a failure dict; otherwise run the (total) analysis stages and
evaluate the result dict — whose name resolution is modelled by
compile_result — returning the failure dict when that evaluation raises. -/
def analyze_resume_realtime (o1 o2 o3 : StratOutcome) : AnalysisOutcome :=
  let er := extract_text_realtime o1 o2 o3
  if er.2.success = false ∨ (py_strip er.1).length < 50 then
    { success := false, error_message := some "Could not extract meaningful text from PDF" }
  else
    match compile_result assigned_locals result_references with
    | Except.error e => { success := false, error_message := some e }
    | Except.ok _ => { success := true, error_message := none }

end Realtime

/-- C9: the real-time result compilation references the name score_breakdown,
which is never assigned in analyze_resume_realtime (the local holding the
score is score_analysis), so for every input that passes extraction and the
length validation the result-compilation step raises NameError and the
success branch never returns a completed report. -/
theorem c9_realtime_success_branch_never_returns (o1 o2 o3 : StratOutcome)
    (h1 : (Realtime.extract_text_realtime o1 o2 o3).2.success = true)
    (h2 : 50 ≤ (py_strip (Realtime.extract_text_realtime o1 o2 o3).1).length) :
    "score_breakdown" ∈ Realtime.result_references
    ∧ "score_breakdown" ∉ Realtime.assigned_locals
    ∧ Realtime.compile_result Realtime.assigned_locals Realtime.result_references
        = Except.error "NameError: name score_breakdown is not defined"
    ∧ (Realtime.analyze_resume_realtime o1 o2 o3).success = false := by
  refine ⟨by decide, by decide, by rfl, ?_⟩
  simp only [Realtime.analyze_resume_realtime]
  rw [if_neg]
  · rfl
  · rw [h1]
    simp only [not_or]
    exact ⟨by simp, Nat.not_lt.2 h2⟩

/-- A 120-character text standing for a successfully extracted resume; long
enough to pass both the 100-character strategy threshold and the
50-character validation. -/
def sample_extracted_text : String :=
  "experienced software engineer with eight years of experience in python and react building cloud services on aws and gcp"

/-- C9 witness: a concrete input passing extraction (PyMuPDF succeeds with
120 characters of text) and validation still yields success = false because
of the undefined score_breakdown reference. -/
theorem c9_realtime_success_branch_witness :
    (Realtime.extract_text_realtime ⟨sample_extracted_text, none⟩ ⟨"", some "x"⟩
        ⟨"", some "y"⟩).2.success = true
    ∧ ((Realtime.analyze_resume_realtime ⟨sample_extracted_text, none⟩ ⟨"", some "x"⟩
        ⟨"", some "y"⟩).success = false) :=
  ⟨by decide,
   (c9_realtime_success_branch_never_returns ⟨sample_extracted_text, none⟩ ⟨"", some "x"⟩
      ⟨"", some "y"⟩ (by decide) (by decide)).2.2.2⟩


/-- Python str.lower() over the character list (so that it evaluates inside
the kernel). -/
def py_lower (s : String) : String :=
  ⟨s.toList.map Char.toLower⟩

/-- Does `hay` start with `needle`? -/
def starts_with : List Char → List Char → Bool
  | [], _ => true
  | _ :: _, [] => false
  | n :: ns, h :: hs => n == h && starts_with ns hs

/-- Does `needle` occur as a contiguous run inside `hay`? -/
def contains_sub : List Char → List Char → Bool
  | hay, needle =>
    match hay with
    | [] => needle.isEmpty
    | _ :: t => starts_with needle hay || contains_sub t needle

/-- Python substring membership `needle in hay`. -/
def str_contains (hay needle : String) : Bool :=
  contains_sub hay.toList needle.toList

namespace Advanced

/-- A job recommendation as sorted and truncated by
AdvancedResumeAnalyzer.generate_detailed_job_recommendations; only the
fields relevant to ordering are kept. -/
structure Recommendation where
  title : String
  match_percentage : Nat
deriving DecidableEq

/-- Stable descending insertion of r into an already-sorted list of
later-generated recommendations: r is placed before the first element whose
match percentage is at most its own, so on equal percentages the
earlier-generated r stays first — exactly the ordering produced by the
stable Python list.sort(key=..., reverse=True). -/
def insert_desc (r : Recommendation) : List Recommendation → List Recommendation
  | [] => [r]
  | s :: rest =>
      if s.match_percentage ≤ r.match_percentage then r :: s :: rest
      else s :: insert_desc r rest

/-- The stable descending sort of line 737:
recommendations.sort(key=lambda x: x[match_percentage], reverse=True). -/
def sort_by_match_desc : List Recommendation → List Recommendation
  | [] => []
  | r :: rest => insert_desc r (sort_by_match_desc rest)

/-- AdvancedResumeAnalyzer.generate_detailed_job_recommendations
(lines 709-738) applied to the concatenated outputs of the eight role
generators: stable sort by match percentage descending, then keep the first
8 (line 738, recommendations[:8]). -/
def generate_detailed_job_recommendations (recs : List Recommendation) :
    List Recommendation :=
  (sort_by_match_desc recs).take 8

theorem mem_insert_desc {r x : Recommendation} :
    ∀ {l : List Recommendation}, x ∈ insert_desc r l → x = r ∨ x ∈ l := by
  intro l
  induction l with
  | nil => simp [insert_desc]
  | cons s rest ih =>
      simp only [insert_desc]
      split
      · intro hx
        rcases List.mem_cons.1 hx with rfl | hx2
        · exact Or.inl rfl
        · exact Or.inr hx2
      · intro hx
        rcases List.mem_cons.1 hx with rfl | hx2
        · exact Or.inr (List.mem_cons_self _ _)
        · rcases ih hx2 with rfl | hx3
          · exact Or.inl rfl
          · exact Or.inr (List.mem_cons_of_mem _ hx3)

theorem pairwise_insert_desc (r : Recommendation) (l : List Recommendation)
    (h : l.Pairwise (fun a b => b.match_percentage ≤ a.match_percentage)) :
    (insert_desc r l).Pairwise (fun a b => b.match_percentage ≤ a.match_percentage) := by
  induction l with
  | nil => simp [insert_desc]
  | cons s rest ih =>
      rcases List.pairwise_cons.1 h with ⟨hs, hrest⟩
      simp only [insert_desc]
      split
      · rename_i hc
        refine List.pairwise_cons.2 ⟨?_, h⟩
        intro x hx
        rcases List.mem_cons.1 hx with rfl | hx2
        · exact hc
        · exact le_trans (hs x hx2) hc
      · rename_i hc
        refine List.pairwise_cons.2 ⟨?_, ih hrest⟩
        intro x hx
        rcases mem_insert_desc hx with rfl | hx2
        · omega
        · exact hs x hx2

theorem pairwise_sort_by_match_desc (l : List Recommendation) :
    (sort_by_match_desc l).Pairwise
      (fun a b => b.match_percentage ≤ a.match_percentage) := by
  induction l with
  | nil => simp [sort_by_match_desc]
  | cons r rest ih => exact pairwise_insert_desc r _ ih

theorem filter_insert_desc (r : Recommendation) (k : Nat) :
    ∀ l : List Recommendation,
      (insert_desc r l).filter (fun x => x.match_percentage == k)
        = if r.match_percentage == k then
            r :: l.filter (fun x => x.match_percentage == k)
          else l.filter (fun x => x.match_percentage == k) := by
  intro l
  induction l with
  | nil =>
      by_cases hr : r.match_percentage = k <;> simp [insert_desc, hr]
  | cons s rest ih =>
      simp only [insert_desc]
      split
      · rename_i hc
        by_cases hr : r.match_percentage = k <;> by_cases hsk : s.match_percentage = k <;>
          simp [List.filter_cons, hr, hsk]
      · rename_i hc
        rw [List.filter_cons, ih]
        by_cases hr : r.match_percentage = k
        · by_cases hsk : s.match_percentage = k
          · omega
          · simp [List.filter_cons, hr, hsk]
        · by_cases hsk : s.match_percentage = k <;> simp [List.filter_cons, hr, hsk]

theorem filter_sort_by_match_desc (k : Nat) :
    ∀ l : List Recommendation,
      (sort_by_match_desc l).filter (fun x => x.match_percentage == k)
        = l.filter (fun x => x.match_percentage == k) := by
  intro l
  induction l with
  | nil => rfl
  | cons r rest ih =>
      simp only [sort_by_match_desc]
      rw [filter_insert_desc, ih, List.filter_cons]

/-- AdvancedResumeAnalyzer.calculate_match_percentage (lines 1087-1109):
matched / len(required_skills) is a true division, the bonus is 0 when the
required list is empty, and the result is min(65 + ratio * 30, 95).  The
inputs are the number of required skills substring-matched by the user
skills and the length of the required list. -/
def calculate_match_percentage (matched total_required : Nat) : ℚ :=
  min (65 + (if total_required = 0 then 0
             else ((matched : ℚ) / (total_required : ℚ)) * 30)) 95

/-- The skill confidence of extract_comprehensive_skills (line 479):
min(len(matches) * 10 + 50, 95). -/
def skill_confidence (match_count : Nat) : Nat :=
  min (match_count * 10 + 50) 95

end Advanced

namespace Realtime

/-- The skill confidence of extract_skills_realtime (line 303):
min(total_matches * 15 + 60, 95). -/
def skill_confidence_realtime (total_matches : Nat) : Nat :=
  min (total_matches * 15 + 60) 95

end Realtime

namespace BasicAnalyzer

/-- One job template of ResumeAnalyzer.generate_job_recommendations
(lines 281-360). -/
structure JobTemplate where
  title : String
  required_skills : List String
  salary_range : String
  company_type : String

/-- The fixed template table of ResumeAnalyzer.generate_job_recommendations,
keyed by experience level (lines 281-360). -/
def job_templates : Level → List JobTemplate
  | Level.junior =>
      [ ⟨"Junior Software Developer", ["JavaScript", "HTML", "CSS"],
          "$50,000 - $75,000", "Technology Startup"⟩
      , ⟨"Frontend Developer", ["React", "JavaScript", "CSS"],
          "$55,000 - $80,000", "Web Development Agency"⟩
      , ⟨"Backend Developer", ["Python", "Node.js", "SQL"],
          "$60,000 - $85,000", "Software Company"⟩
      , ⟨"QA Engineer", ["Testing", "Automation", "SQL"],
          "$45,000 - $70,000", "Enterprise"⟩ ]
  | Level.mid =>
      [ ⟨"Full Stack Developer", ["React", "Node.js", "MongoDB"],
          "$80,000 - $120,000", "Technology Company"⟩
      , ⟨"Software Engineer", ["Python", "JavaScript", "AWS"],
          "$90,000 - $130,000", "Tech Startup"⟩
      , ⟨"DevOps Engineer", ["Docker", "Kubernetes", "AWS"],
          "$95,000 - $140,000", "Cloud Services"⟩
      , ⟨"Data Engineer", ["Python", "SQL", "Spark"],
          "$100,000 - $145,000", "Data Analytics"⟩ ]
  | Level.senior =>
      [ ⟨"Senior Software Engineer", ["JavaScript", "Python", "System Design"],
          "$130,000 - $180,000", "Large Tech Company"⟩
      , ⟨"Technical Lead", ["Leadership", "Architecture", "Mentoring"],
          "$140,000 - $190,000", "Enterprise"⟩
      , ⟨"Principal Engineer", ["System Design", "Leadership", "Strategy"],
          "$160,000 - $220,000", "Technology Giant"⟩
      , ⟨"Engineering Manager", ["Management", "Leadership", "Technical Strategy"],
          "$150,000 - $200,000", "Software Company"⟩ ]

/-- The three skill lists returned by ResumeAnalyzer.extract_skills. -/
structure Skills where
  technical : List String
  soft : List String
  industry : List String

/-- A basic-analyzer recommendation entry. -/
structure BasicRecommendation where
  title : String
  match_percentage : Nat
  required_skills : List String
  salary_range : String
  company_type : String

/-- ResumeAnalyzer.generate_job_recommendations (lines 278-383): one entry
per template of the level, in template order — the list is never sorted and
never truncated.  matching_skills keeps the required skills that appear as a
lowercase substring of some user skill, and the match percentage is
min(85 + 3 * len(matching_skills), 98). -/
def generate_job_recommendations (skills : Skills) (lvl : Level) :
    List BasicRecommendation :=
  (job_templates lvl).map (fun t =>
    let user_skills := skills.technical ++ skills.soft ++ skills.industry
    let matching := t.required_skills.filter
      (fun s => user_skills.any (fun u => str_contains (py_lower u) (py_lower s)))
    { title := t.title
      match_percentage := min (85 + matching.length * 3) 98
      required_skills := matching ++ skills.technical.take 3
      salary_range := t.salary_range
      company_type := t.company_type })

end BasicAnalyzer

/-- C6 counterexample: the basic analyzer cited by the claim returns its
recommendations in fixed template order, not sorted by match percentage.
For a junior candidate whose only skill is React, the four generated match
percentages are 85, 88, 85, 85 — not descending. -/
theorem c6_basic_recommendations_unsorted_counterexample :
    (BasicAnalyzer.generate_job_recommendations ⟨["React"], [], []⟩ Level.junior).map
        (fun r => r.match_percentage) = [85, 88, 85, 85]
    ∧ ¬ List.Pairwise (fun a b : Nat => b ≤ a) [85, 88, 85, 85] := by
  exact ⟨by decide, by decide⟩

/-- C6 (amended to the advanced analyzer): the advanced recommender returns
at most 8 recommendations, in descending match-percentage order, and the
sort is stable — for every percentage value k, the recommendations carrying
k appear in the sorted list exactly in their generation order (the filter of
the sorted list equals the filter of the input); the returned list is the
8-element prefix of that stable sort. -/
theorem c6_advanced_top8_sorted_and_stable (recs : List Advanced.Recommendation) :
    (Advanced.generate_detailed_job_recommendations recs).length ≤ 8
    ∧ (Advanced.generate_detailed_job_recommendations recs).Pairwise
        (fun a b => b.match_percentage ≤ a.match_percentage)
    ∧ (∀ k : Nat, (Advanced.sort_by_match_desc recs).filter
          (fun x => x.match_percentage == k)
        = recs.filter (fun x => x.match_percentage == k))
    ∧ Advanced.generate_detailed_job_recommendations recs
        = (Advanced.sort_by_match_desc recs).take 8 := by
  refine ⟨?_, ?_, fun k => Advanced.filter_sort_by_match_desc k recs, rfl⟩
  · simp only [Advanced.generate_detailed_job_recommendations]
    rw [List.length_take]
    exact Nat.min_le_left _ _
  · exact List.Pairwise.sublist (List.take_sublist _ _)
      (Advanced.pairwise_sort_by_match_desc recs)

/-- C7 counterexample: the real-time analyzer cited by the claim records
min(matchCount * 15 + 60, 95): a skill matched once gets confidence 75,
whereas the claimed formula min(1 * 10 + 50, 95) gives 60. -/
theorem c7_realtime_confidence_formula_counterexample :
    Realtime.skill_confidence_realtime 1 = 75
    ∧ Advanced.skill_confidence 1 = 60
    ∧ Realtime.skill_confidence_realtime 1 ≠ Advanced.skill_confidence 1 := by
  exact ⟨rfl, rfl, by decide⟩

/-- C7 (amended to the advanced analyzer): for any fixed skill, the recorded
confidence equals min(matchCount * 10 + 50, 95), is monotonically
non-decreasing in the match count, and never exceeds 95. -/
theorem c7_advanced_confidence_monotone_capped (m n : Nat) (h : m ≤ n) :
    Advanced.skill_confidence n = min (n * 10 + 50) 95
    ∧ Advanced.skill_confidence m ≤ Advanced.skill_confidence n
    ∧ Advanced.skill_confidence n ≤ 95 := by
  refine ⟨rfl, ?_, ?_⟩ <;> simp only [Advanced.skill_confidence, Nat.min_def] <;>
    split_ifs <;> omega

/-- C7 witness at match counts 1 ≤ 2. -/
theorem c7_advanced_confidence_witness :
    1 ≤ 2 ∧ (Advanced.skill_confidence 2 = min (2 * 10 + 50) 95
      ∧ Advanced.skill_confidence 1 ≤ Advanced.skill_confidence 2
      ∧ Advanced.skill_confidence 2 ≤ 95) :=
  ⟨by decide, c7_advanced_confidence_monotone_capped 1 2 (by decide)⟩

/-- C8 counterexample: the basic generator cited by the claim computes
min(85 + 3 * matchedCount, 98), not min(65 + (matched / total) * 30, 95).
For the junior Software Developer template with zero of its three required
skills matched, the basic analyzer reports 85 while the claimed formula
yields 65. -/
theorem c8_basic_match_formula_counterexample :
    ((BasicAnalyzer.generate_job_recommendations ⟨["React"], [], []⟩ Level.junior).map
        (fun r => r.match_percentage)).head? = some 85
    ∧ Advanced.calculate_match_percentage 0 3 = 65
    ∧ (85 : ℚ) ≠ 65 := by
  refine ⟨by decide, ?_, by norm_num⟩
  simp only [Advanced.calculate_match_percentage]
  norm_num

/-- C8 (amended to the advanced analyzer): for matched ≤ total, the advanced
match percentage equals min(65 + (matched / total) * 30, 95) — with bonus 0
for an empty requirement list — and always lies in [65, 95]. -/
theorem c8_advanced_match_percentage_bounds (m t : Nat) (h : m ≤ t) :
    Advanced.calculate_match_percentage m t
      = min (65 + (if t = 0 then 0 else ((m : ℚ) / (t : ℚ)) * 30)) 95
    ∧ 65 ≤ Advanced.calculate_match_percentage m t
    ∧ Advanced.calculate_match_percentage m t ≤ 95 := by
  refine ⟨rfl, ?_, min_le_right _ _⟩
  simp only [Advanced.calculate_match_percentage]
  rcases Nat.eq_zero_or_pos t with ht | ht
  · subst ht
    norm_num
  · have htne : t ≠ 0 := Nat.pos_iff_ne_zero.mp ht
    rw [if_neg htne]
    have htq : (0 : ℚ) < (t : ℚ) := by exact_mod_cast ht
    have h1 : (0 : ℚ) ≤ (m : ℚ) / (t : ℚ) := by positivity
    refine le_min ?_ (by norm_num)
    nlinarith

/-- C8 witness at 1 matched of 2 required. -/
theorem c8_advanced_match_percentage_witness :
    1 ≤ 2 ∧ (Advanced.calculate_match_percentage 1 2
      = min (65 + (if (2 : Nat) = 0 then 0 else ((1 : ℚ) / (2 : ℚ)) * 30)) 95
    ∧ 65 ≤ Advanced.calculate_match_percentage 1 2
    ∧ Advanced.calculate_match_percentage 1 2 ≤ 95) :=
  ⟨by decide, c8_advanced_match_percentage_bounds 1 2 (by decide)⟩

/-- Python str.title(): uppercase each letter that starts an alphabetic run,
lowercase the other letters, leave other characters unchanged. -/
def python_title_aux : Bool → List Char → List Char
  | _, [] => []
  | prev_alpha, c :: cs =>
      if c.isAlpha then
        (if prev_alpha then c.toLower else c.toUpper) :: python_title_aux true cs
      else
        c :: python_title_aux false cs

/-- Python str.title() over a string. -/
def python_title (s : String) : String :=
  ⟨python_title_aux false s.toList⟩

namespace Advanced

/-- The special_cases display-name table of
AdvancedResumeAnalyzer.format_skill_name (lines 554-591). -/
def special_cases : List (String × String) :=
  [ ("javascript", "JavaScript"), ("typescript", "TypeScript"), ("nodejs", "Node.js")
  , ("reactjs", "React.js"), ("vuejs", "Vue.js"), ("angularjs", "Angular.js")
  , ("mysql", "MySQL"), ("postgresql", "PostgreSQL"), ("mongodb", "MongoDB")
  , ("aws", "AWS"), ("gcp", "Google Cloud Platform"), ("html", "HTML")
  , ("css", "CSS"), ("sql", "SQL"), ("api", "API"), ("rest", "REST")
  , ("graphql", "GraphQL"), ("docker", "Docker"), ("kubernetes", "Kubernetes")
  , ("jenkins", "Jenkins"), ("git", "Git"), ("github", "GitHub")
  , ("gitlab", "GitLab"), ("jira", "JIRA"), ("ci/cd", "CI/CD")
  , ("devops", "DevOps"), ("mlops", "MLOps"), ("tensorflow", "TensorFlow")
  , ("pytorch", "PyTorch"), ("scikit-learn", "Scikit-learn")
  , ("pandas", "Pandas"), ("numpy", "NumPy") ]

/-- AdvancedResumeAnalyzer.format_skill_name (lines 554-591): look the
lowercased keyword up in the special-case table; unmapped names default to
Python title-case. -/
def format_skill_name (skill : String) : String :=
  match special_cases.lookup (py_lower skill) with
  | some v => v
  | none => python_title skill

/-- The skill_database table of AdvancedResumeAnalyzer.__init__
(lines 99-160): category, then subcategory, then the keyword list. -/
def skill_database : List (String × List (String × List String)) :=
  [ ("programming_languages",
      [ ("python", ["python", "py", "django", "flask", "fastapi", "pandas", "numpy"])
      , ("javascript", ["javascript", "js", "node.js", "nodejs", "react", "vue", "angular"])
      , ("java", ["java", "spring", "hibernate", "maven", "gradle"])
      , ("c++", ["c++", "cpp", "c plus plus"])
      , ("c#", ["c#", "csharp", "c sharp", ".net", "asp.net"])
      , ("php", ["php", "laravel", "symfony", "codeigniter"])
      , ("ruby", ["ruby", "rails", "ruby on rails"])
      , ("go", ["golang", "go lang"])
      , ("rust", ["rust", "cargo"])
      , ("swift", ["swift", "ios"])
      , ("kotlin", ["kotlin", "android"])
      , ("scala", ["scala", "akka"])
      , ("typescript", ["typescript", "ts"])
      , ("r", ["r programming", "r language"])
      , ("matlab", ["matlab", "simulink"])
      , ("perl", ["perl"])
      , ("shell", ["bash", "shell scripting", "powershell"])
      , ("sql", ["sql", "mysql", "postgresql", "sqlite", "oracle", "sql server"]) ])
  , ("web_technologies",
      [ ("frontend", ["html", "css", "sass", "less", "bootstrap", "tailwind",
          "material-ui", "chakra-ui"])
      , ("backend", ["express", "koa", "fastify", "spring boot", "django rest",
          "flask api"])
      , ("frameworks", ["react", "angular", "vue", "svelte", "ember", "backbone"])
      , ("mobile", ["react native", "flutter", "ionic", "xamarin", "cordova"])
      , ("cms", ["wordpress", "drupal", "joomla", "contentful", "strapi"]) ])
  , ("databases",
      [ ("relational", ["mysql", "postgresql", "sqlite", "oracle", "sql server",
          "mariadb"])
      , ("nosql", ["mongodb", "cassandra", "couchdb", "neo4j", "dynamodb"])
      , ("cache", ["redis", "memcached", "elasticsearch"])
      , ("data_warehouse", ["snowflake", "bigquery", "redshift", "databricks"]) ])
  , ("cloud_platforms",
      [ ("aws", ["aws", "amazon web services", "ec2", "s3", "lambda", "rds",
          "cloudformation"])
      , ("azure", ["azure", "microsoft azure", "azure functions", "azure sql"])
      , ("gcp", ["gcp", "google cloud", "google cloud platform", "app engine",
          "cloud functions"])
      , ("others", ["heroku", "digitalocean", "linode", "vultr", "vercel", "netlify"]) ])
  , ("devops_tools",
      [ ("containerization", ["docker", "kubernetes", "podman", "containerd"])
      , ("ci_cd", ["jenkins", "github actions", "gitlab ci", "travis ci", "circleci",
          "azure devops"])
      , ("infrastructure", ["terraform", "ansible", "puppet", "chef", "cloudformation"])
      , ("monitoring", ["prometheus", "grafana", "elk stack", "splunk", "datadog",
          "new relic"])
      , ("version_control", ["git", "github", "gitlab", "bitbucket", "svn"]) ])
  , ("data_science",
      [ ("libraries", ["pandas", "numpy", "scikit-learn", "tensorflow", "pytorch",
          "keras"])
      , ("visualization", ["matplotlib", "seaborn", "plotly", "bokeh", "d3.js"])
      , ("big_data", ["spark", "hadoop", "kafka", "airflow", "dask"])
      , ("ml_ops", ["mlflow", "kubeflow", "sagemaker", "azure ml"]) ])
  , ("security",
      [ ("tools", ["nmap", "wireshark", "metasploit", "burp suite", "owasp"])
      , ("concepts", ["penetration testing", "vulnerability assessment", "encryption",
          "ssl/tls"]) ])
  , ("testing",
      [ ("frameworks", ["jest", "mocha", "pytest", "junit", "selenium", "cypress"])
      , ("types", ["unit testing", "integration testing", "e2e testing",
          "performance testing"]) ]) ]

/-- The per-subcategory inner loop of extract_comprehensive_skills
(lines 459-499): walk the keyword list; when the match oracle reports the
keyword found in the text, append its canonical display form unless that
form is already in the list.  The oracle p abstracts the four regex variant
patterns tested against the lowercased text. -/
def found_skills_in (p : String → Bool) : List String → List String → List String
  | [], acc => acc
  | k :: ks, acc =>
      if p k then
        (if format_skill_name k ∈ acc then found_skills_in p ks acc
         else found_skills_in p ks (acc ++ [format_skill_name k]))
      else found_skills_in p ks acc

/-- The technical_skills nested dict built by extract_comprehensive_skills
(lines 456-499): for every category, the subcategories whose found-skill
list is non-empty, with that list. -/
def extract_technical_skills (p : String → Bool) :
    List (String × List (String × List String)) :=
  skill_database.map (fun cat =>
    (cat.1, cat.2.filterMap (fun sub =>
      let fs := found_skills_in p sub.2 []
      if fs.isEmpty then none else some (sub.1, fs))))

theorem found_skills_in_nodup (p : String → Bool) :
    ∀ (ks acc : List String), acc.Nodup → (found_skills_in p ks acc).Nodup := by
  intro ks
  induction ks with
  | nil => intro acc h; exact h
  | cons k ks ih =>
      intro acc h
      simp only [found_skills_in]
      split
      · split
        · exact ih acc h
        · rename_i hnot
          refine ih _ ?_
          refine List.Nodup.append h (List.nodup_singleton _) ?_
          intro x hx hx2
          rw [List.mem_singleton] at hx2
          subst hx2
          exact hnot hx
      · exact ih acc h

end Advanced

/-- C10 counterexample: within one analysis of a text whose only keyword hit
is "react" (the oracle is the concrete indicator of the keyword "react", as
produced by the text "react"), the canonical display name "React" is
recorded in two different (category, subcategory) slots — under
programming_languages / javascript and again under web_technologies /
frameworks — because the keyword react occurs in both keyword lists. -/
theorem c10_react_recorded_in_two_slots_counterexample :
    ("programming_languages", [("javascript", ["React"])])
        ∈ Advanced.extract_technical_skills (fun k => k == "react")
    ∧ ("web_technologies", [("frameworks", ["React"])])
        ∈ Advanced.extract_technical_skills (fun k => k == "react")
    ∧ ("programming_languages" : String) ≠ "web_technologies" := by
  refine ⟨by decide, by decide, by decide⟩

/-- C10 (amended): uniqueness holds only within a single (category,
subcategory) slot — every found-skill list produced by the Skill Matcher is
duplicate-free (the not-in guard of line 475) — while the same canonical
name may be recorded independently under several subcategories. -/
theorem c10_within_slot_no_duplicates (p : String → Bool) (cat : String)
    (subs : List (String × List String)) (sub : String) (fs : List String)
    (hcat : (cat, subs) ∈ Advanced.extract_technical_skills p)
    (hsub : (sub, fs) ∈ subs) : fs.Nodup := by
  simp only [Advanced.extract_technical_skills, List.mem_map] at hcat
  rcases hcat with ⟨c0, hc0, heq⟩
  have hsubs : subs = c0.2.filterMap (fun sub =>
      let fs := Advanced.found_skills_in p sub.2 []
      if fs.isEmpty then none else some (sub.1, fs)) := by
    have := congrArg Prod.snd heq
    simpa using this.symm
  rw [hsubs] at hsub
  rcases List.mem_filterMap.1 hsub with ⟨s0, _, hsome⟩
  simp only at hsome
  split at hsome
  · exact absurd hsome (by simp)
  · have hfs : fs = Advanced.found_skills_in p s0.2 [] := by
      injection hsome with h1
      exact (congrArg Prod.snd h1).symm.trans rfl
    rw [hfs]
    exact Advanced.found_skills_in_nodup p s0.2 [] List.nodup_nil

/-- C10 witness: the programming_languages / javascript slot found by the
react oracle carries the duplicate-free list ["React"]. -/
theorem c10_within_slot_no_duplicates_witness :
    (("programming_languages", [("javascript", ["React"])])
        ∈ Advanced.extract_technical_skills (fun k => k == "react"))
    ∧ (["React"] : List String).Nodup :=
  ⟨by decide,
   c10_within_slot_no_duplicates (fun k => k == "react") "programming_languages"
     [("javascript", ["React"])] "javascript" ["React"] (by decide) (by decide)⟩
